import Mathlib

/-!
Verification development for the EfficientViT-SAM chat agent
(`evitsam.py`, `chat_proto.py`).

Modelling conventions:
* Python floats are modelled as exact rationals (`ℚ`); all clamping in the
  code uses `max`/`min`, whose comparisons agree with the idealised values.
* Byte strings (image data) are modelled as opaque `String` tokens; base64
  decoding is the identity on these tokens.
* The regular-expression patterns of `parse_prompt_for_parameters` use only
  the pairwise-disjoint character classes `\s`, `[=:]`, `[\d.]` and literal
  words, so greedy maximal-munch matching with no backtracking is exact for
  them; `re.search` is leftmost-position search, modelled by `reSearch`.
* `\s` and `\d` are modelled on ASCII input (the classes restricted to
  ASCII), and `str.lower` by `Char.toLower`.
-/

namespace EvitSam

/-- ASCII whitespace: the regex class \s restricted to ASCII. -/
def pyIsSpace (c : Char) : Bool :=
  c == ' ' || c == '\t' || c == '\n' || c == '\r' || c == '\x0b' || c == '\x0c'

/-- The character class [\d.] of the numeric capture groups. -/
def isDigitDot (c : Char) : Bool := c.isDigit || c == '.'

/-- Match a literal word at the current position, returning the rest. -/
def matchLit : List Char → List Char → Option (List Char)
  | [], s => some s
  | _ :: _, [] => none
  | c :: cs, d :: ds => if c == d then matchLit cs ds else none

/-- \s* : greedy run of whitespace. -/
def skipSpaces (s : List Char) : List Char := s.dropWhile pyIsSpace

/-- \s+ : at least one whitespace character, then greedily all of them. -/
def matchSpaces1 : List Char → Option (List Char)
  | [] => none
  | c :: cs => if pyIsSpace c then some (cs.dropWhile pyIsSpace) else none

/-- ([\d.]+) : greedy nonempty run of digits and dots; returns the captured
run and the rest of the input. -/
def matchGroup (s : List Char) : Option (List Char × List Char) :=
  match s.takeWhile isDigitDot with
  | [] => none
  | g => some (g, s.dropWhile isDigitDot)

/-- Pattern `{alias}\s*[=:]\s*([\d.]+)` anchored at the current position
(evitsam.py line 38). -/
def patEq (al : List Char) (s : List Char) : Option (List Char) := do
  let s1 ← matchLit al s
  match skipSpaces s1 with
  | [] => none
  | c :: s2 =>
    if c == '=' || c == ':' then do
      let (g, _) ← matchGroup (skipSpaces s2)
      return g
    else none

/-- Pattern `set\s+{alias}\s+to\s+([\d.]+)` (evitsam.py line 39). -/
def patSetTo (al : List Char) (s : List Char) : Option (List Char) := do
  let s1 ← matchLit "set".toList s
  let s2 ← matchSpaces1 s1
  let s3 ← matchLit al s2
  let s4 ← matchSpaces1 s3
  let s5 ← matchLit "to".toList s4
  let s6 ← matchSpaces1 s5
  let (g, _) ← matchGroup s6
  return g

/-- Pattern `use\s+([\d.]+)\s+for\s+{alias}` (evitsam.py line 40). -/
def patUseFor (al : List Char) (s : List Char) : Option (List Char) := do
  let s1 ← matchLit "use".toList s
  let s2 ← matchSpaces1 s1
  let (g, s3) ← matchGroup s2
  let s4 ← matchSpaces1 s3
  let s5 ← matchLit "for".toList s4
  let s6 ← matchSpaces1 s5
  let _ ← matchLit al s6
  return g

/-- Pattern `{alias}\s+([\d.]+)` (evitsam.py line 41). -/
def patPlain (al : List Char) (s : List Char) : Option (List Char) := do
  let s1 ← matchLit al s
  let s2 ← matchSpaces1 s1
  let (g, _) ← matchGroup s2
  return g

/-- `re.search`: try the anchored matcher at every position, leftmost
position first; return the first captured group. -/
def reSearch (m : List Char → Option (List Char)) : List Char → Option (List Char)
  | [] => m []
  | c :: rest =>
    match m (c :: rest) with
    | some g => some g
    | none => reSearch m rest

/-- Numeric value of a digit string, most significant digit first. -/
def digitsVal (l : List Char) : Nat :=
  l.foldl (fun a c => 10 * a + (c.toNat - 48)) 0

/-- Python `float()` restricted to strings over [\d.] (the only strings the
capture group can produce): succeeds iff there is at most one dot and at
least one digit, and yields the exact decimal value
intpart.fracpart = (intpart * 10 ^ k + fracpart) / 10 ^ k. A failing
conversion is the code's ValueError branch. (`mkRat` rather than `+`/`/` so
the value is kernel-computable; the rational is the same.) -/
def parseFloat (g : List Char) : Option ℚ :=
  if g.count '.' ≤ 1 ∧ g.any Char.isDigit = true then
    some (mkRat
      ((digitsVal (g.takeWhile (fun c => c != '.')) *
          10 ^ ((g.dropWhile (fun c => c != '.')).drop 1).length +
        digitsVal ((g.dropWhile (fun c => c != '.')).drop 1) : ℕ) : ℤ)
      (10 ^ ((g.dropWhile (fun c => c != '.')).drop 1).length))
  else none

/-- The inner pattern loop of evitsam.py lines 44-55: try the patterns in
order; on a regex match whose group fails float conversion, fall through to
the next pattern (the `except ValueError: continue`); on a successful
conversion, stop (the `break`). -/
def tryPats : List (List Char → Option (List Char)) → List Char → Option ℚ
  | [], _ => none
  | pt :: pts, p =>
    match reSearch pt p with
    | some g =>
      match parseFloat g with
      | some v => some v
      | none => tryPats pts p
    | none => tryPats pts p

/-- The value extracted for one alias: the four surface patterns of
evitsam.py lines 37-42, in their listed order. -/
def aliasSearch (al : List Char) (p : List Char) : Option ℚ :=
  tryPats [patEq al, patSetTo al, patUseFor al, patPlain al] p

/-- The partial parameter-update dictionary built by
`parse_prompt_for_parameters`; a `none` field is an absent key. -/
structure Updates where
  points_per_side : Option ℚ := none
  iou_threshold : Option ℚ := none
  stability_threshold : Option ℚ := none
  box_nms_threshold : Option ℚ := none
deriving DecidableEq, Repr

/-- A full parameter record (the shape of DEFAULT_PARAMS, evitsam.py
lines 10-15). -/
structure Params where
  points_per_side : ℚ
  iou_threshold : ℚ
  stability_threshold : ℚ
  box_nms_threshold : ℚ
deriving DecidableEq, Repr

/-- evitsam.py lines 10-15: 64, 0.8, 0.85, 0.7 (decimal constants written
with `mkRat` so they are kernel-computable). -/
def DEFAULT_PARAMS : Params :=
  { points_per_side := 64
    iou_threshold := mkRat 8 10
    stability_threshold := mkRat 85 100
    box_nms_threshold := mkRat 7 10 }

/-- The alias loop of evitsam.py lines 26-55, in the dict-insertion order
points, iou, stability, nms, quality; a later alias overwrites an earlier
one that targets the same field ("quality" also writes iou_threshold).
The int conversion for an integral points value (lines 50-51) is the
identity on the idealised numeric value. -/
def parseLoop (p : List Char) : Updates :=
  let u : Updates := {}
  let u := match aliasSearch "points".toList p with
    | some v => { u with points_per_side := some v }
    | none => u
  let u := match aliasSearch "iou".toList p with
    | some v => { u with iou_threshold := some v }
    | none => u
  let u := match aliasSearch "stability".toList p with
    | some v => { u with stability_threshold := some v }
    | none => u
  let u := match aliasSearch "nms".toList p with
    | some v => { u with box_nms_threshold := some v }
    | none => u
  match aliasSearch "quality".toList p with
    | some v => { u with iou_threshold := some v }
    | none => u

/-- Does the first list occur as a prefix of the second? -/
def prefixOf : List Char → List Char → Bool
  | [], _ => true
  | _ :: _, [] => false
  | c :: cs, d :: ds => c == d && prefixOf cs ds

/-- Python's substring test `needle in hay`: contiguous occurrence. -/
def containsSub (needle : List Char) : List Char → Bool
  | [] => needle.isEmpty
  | hay@(_ :: rest) => prefixOf needle hay || containsSub needle rest

/-- Exact rational addition, written through `mkRat` so that it is
kernel-computable (the library `Rat.add` is irreducible); `qAdd_eq` below
proves it is ordinary addition. -/
def qAdd (a b : ℚ) : ℚ := mkRat (a.num * b.den + b.num * a.den) (a.den * b.den)

/-- Exact rational subtraction through `mkRat`; `qSub_eq` below proves it
is ordinary subtraction. -/
def qSub (a b : ℚ) : ℚ := mkRat (a.num * b.den - b.num * a.den) (a.den * b.den)

/-- The Python int DEFAULT_PARAMS["points_per_side"]; the phrase blocks do
integer arithmetic on it (64 * 2 and 64 // 2). -/
def defaultPointsInt : ℤ := 64

/-- The two canned-phrase blocks of evitsam.py lines 57-70. Both update the
dictionary from DEFAULT_PARAMS, run after the alias loop, and "faster" runs
after "higher quality". `Int.fdiv` is Python's floor division `//`. -/
def applyPhrases (p : List Char) (u : Updates) : Updates :=
  let u1 := if containsSub ("higher quality".toList) p then
    { u with
      points_per_side := some (min 128 ((defaultPointsInt * 2 : ℤ) : ℚ))
      iou_threshold :=
        some (min (mkRat 95 100) (qAdd DEFAULT_PARAMS.iou_threshold (mkRat 5 100)))
      stability_threshold :=
        some (min (mkRat 95 100)
          (qAdd DEFAULT_PARAMS.stability_threshold (mkRat 5 100))) }
    else u
  if containsSub ("faster".toList) p then
    { u1 with
      points_per_side := some (max 16 ((Int.fdiv defaultPointsInt 2 : ℤ) : ℚ))
      iou_threshold :=
        some (max (mkRat 5 10) (qSub DEFAULT_PARAMS.iou_threshold (mkRat 1 10)))
      stability_threshold :=
        some (max (mkRat 5 10)
          (qSub DEFAULT_PARAMS.stability_threshold (mkRat 1 10))) }
  else u1

/-- The lowercasing applied at the top of parse_prompt_for_parameters
(evitsam.py line 23). -/
def pyLower (s : String) : List Char := s.toList.map Char.toLower

/-- evitsam.py lines 17-72. -/
def parse_prompt_for_parameters (prompt : String) : Updates :=
  applyPhrases (pyLower prompt) (parseLoop (pyLower prompt))

/-- `params.update(u)` for the fixed four-key parameter dictionary: a key
present in `u` overwrites, an absent key keeps the old value. -/
def updateParams (p : Params) (u : Updates) : Params :=
  { points_per_side := u.points_per_side.getD p.points_per_side
    iou_threshold := u.iou_threshold.getD p.iou_threshold
    stability_threshold := u.stability_threshold.getD p.stability_threshold
    box_nms_threshold := u.box_nms_threshold.getD p.box_nms_threshold }

/-- Python `int()` on a rational: truncation toward zero. -/
def pyInt (q : ℚ) : ℤ := if 0 ≤ q then ⌊q⌋ else ⌈q⌉

/-- `max(1, min(128, int(x)))` of evitsam.py line 103 (an integer result). -/
def clampPoints (x : ℚ) : ℚ := ((max 1 (min 128 (pyInt x)) : ℤ) : ℚ)

/-- `max(0.1, min(1.0, float(x)))` of evitsam.py lines 104-106. -/
def clampThreshold (x : ℚ) : ℚ := max (mkRat 1 10) (min 1 x)

/-- The validation step, evitsam.py lines 102-106. -/
def validateParams (p : Params) : Params :=
  { points_per_side := clampPoints p.points_per_side
    iou_threshold := clampThreshold p.iou_threshold
    stability_threshold := clampThreshold p.stability_threshold
    box_nms_threshold := clampThreshold p.box_nms_threshold }

/-- evitsam.py lines 92-106: defaults, updated by the parsed prompt, updated
by the explicit keyword overrides, then validated. -/
def resolveParams (prompt : String) (overrides : Updates) : Params :=
  validateParams (updateParams
    (updateParams DEFAULT_PARAMS (parse_prompt_for_parameters prompt)) overrides)

/-- Outcome of the remote segmentation call inside the try block of
evitsam.py lines 108-154. -/
inductive RemoteOutcome where
  | exn (msg : String)
  | noOutput
  | output (bytes : String)
deriving DecidableEq, Repr

/-- `q * n` through `mkRat`, kernel-computable. -/
def qMulInt (q : ℚ) (n : ℤ) : ℚ := mkRat (q.num * n) q.den

/-- Round to the nearest integer, ties to even: the rounding of Python's
fixed-point float formatting, idealised to exact rationals. -/
def roundHalfEven (q : ℚ) : ℤ :=
  if qSub q ((⌊q⌋ : ℤ) : ℚ) < mkRat 1 2 then ⌊q⌋
  else if mkRat 1 2 < qSub q ((⌊q⌋ : ℤ) : ℚ) then ⌊q⌋ + 1
  else if ⌊q⌋ % 2 = 0 then ⌊q⌋ else ⌊q⌋ + 1

/-- Python's format spec `.2f`: two fixed decimal places. -/
def fmt2 (q : ℚ) : String :=
  (if roundHalfEven (qMulInt q 100) < 0 then "-" else "") ++
  toString ((roundHalfEven (qMulInt q 100)).natAbs / 100) ++ "." ++
  (if (roundHalfEven (qMulInt q 100)).natAbs % 100 < 10 then "0" else "") ++
  toString ((roundHalfEven (qMulInt q 100)).natAbs % 100)

/-- The success analysis f-string of evitsam.py lines 134-140 (applied to
the validated parameters, whose points value is an int). -/
def analysisText (p : Params) : String :=
  "Processed image with SAM parameters:\n- Points per side: " ++
    toString (pyInt p.points_per_side) ++
  "\n- IoU threshold: " ++ fmt2 p.iou_threshold ++
  "\n- Stability threshold: " ++ fmt2 p.stability_threshold ++
  "\n- Box NMS threshold: " ++ fmt2 p.box_nms_threshold

/-- process_image_with_sam, evitsam.py lines 74-154, with the remote call
modelled by a `RemoteOutcome` oracle. Returns (image bytes or absent,
analysis text). `imageData` and `mimeType` are carried for shape; the
remote result is the oracle's. On the exception path the error string is
the text of whatever exception finally propagated to line 153. -/
def process_image_with_sam (imageData mimeType prompt : String)
    (overrides : Updates) (o : RemoteOutcome) : Option String × String :=
  let params := resolveParams prompt overrides
  match o with
  | .output b => (some b, analysisText params)
  | .noOutput => (none, "Failed to process image: No output file was generated")
  | .exn m => (none, "Error processing image with SAM: " ++ m)

/-- Filesystem operations on the two per-call temporary files. -/
inductive FSOp where
  | createTmp
  | createOut
  | unlinkTmp
  | unlinkOut
deriving DecidableEq, Repr

/-- Which of the two temporary files currently exist. -/
structure FSState where
  tmpFile : Bool
  outFile : Bool
deriving DecidableEq, Repr

def applyFSOp (s : FSState) : FSOp → FSState
  | .createTmp => { s with tmpFile := true }
  | .createOut => { s with outFile := true }
  | .unlinkTmp => { s with tmpFile := false }
  | .unlinkOut => { s with outFile := false }

/-- Replay a trace from the empty filesystem. -/
def runFS (ops : List FSOp) : FSState :=
  ops.foldl applyFSOp { tmpFile := false, outFile := false }

/-- The distinct exit paths of the outer try block, evitsam.py
lines 108-154. `writeRaises` is the path where `tmp.write(image_data)`
raises inside the `with tempfile.NamedTemporaryFile(delete=False, ...)`
block (lines 110-112): that block sits inside the outer try but before the
inner try/finally, so on this path the cleanup block never runs. The other
four paths are inside the inner try/finally. -/
inductive ExitPath where
  | writeRaises
  | predictRaises
  | noOutputFile
  | readRaises
  | success
deriving DecidableEq, Repr

/-- The finally block, evitsam.py lines 146-151: unlink the input temp file
if it exists; then the `os.path.exists(result)` test — when the local
`result` was never bound (exception before line 119 returned) that
reference raises NameError, which happens after the tmp unlink and is
caught by the outer except at line 153. -/
def finallyOps (tmpExists resultBound outExists : Bool) : List FSOp :=
  (if tmpExists then [FSOp.unlinkTmp] else []) ++
  (if resultBound then (if outExists then [FSOp.unlinkOut] else []) else [])

/-- The temp-file operations performed along each exit path. On
`writeRaises` the file was already created with delete=False when the write
raised; the with-block only closes the handle, the inner try/finally was
never entered, and the exception goes straight to the outer except at
line 153 — so no unlink is ever performed. On the other paths the input
file is created at line 110; the output file exists once the remote call
returned a real file (raised-during-read path and success); then the
finally block runs against the current filesystem state. -/
def processFSTrace (e : ExitPath) : List FSOp :=
  match e with
  | .writeRaises => [FSOp.createTmp]
  | _ =>
    let pre := [FSOp.createTmp] ++
      (match e with
       | .readRaises => [FSOp.createOut]
       | .success => [FSOp.createOut]
       | _ => [])
    let s := runFS pre
    let resultBound := match e with
      | .predictRaises => false
      | _ => true
    pre ++ finallyOps s.tmpFile resultBound s.outFile

/-- An inbound content item of a ChatMessage as the handler distinguishes
them (chat_proto.py lines 86-97): session start, text, resource (carrying
its resource id), or any other content type (silently skipped). -/
inductive InItem where
  | startSession
  | text (s : String)
  | resource (rid : String)
  | other
deriving DecidableEq, Repr

/-- Result of `external_storage.download` for one resource id: a payload
with optional mime type and contents, a payload without contents, or a
raised exception. -/
inductive DOutcome where
  | ok (mime : Option String) (contents : String)
  | noContents
  | exn
deriving DecidableEq, Repr

/-- A gathered content-items dict entry (chat_proto.py lines 93-110). -/
inductive CItem where
  | text (s : String)
  | res (mime contents : String)
deriving DecidableEq, Repr

/-- External collaborators of one handle_message invocation, as oracles:
the storage download per resource id, the remote segmentation outcome, the
asset id returned by create_asset, and the storage base URL. -/
structure Oracle where
  download : String → DOutcome
  remote : RemoteOutcome
  assetId : String
  storageUrl : String

/-- Events emitted by the handler, in order: the acknowledgement send,
outbound chat messages (text / metadata / resource reference), storage
downloads, and the remote segmentation invocation with the parameters it
is given. -/
inductive Ev where
  | ack
  | sendText (s : String)
  | sendMetadata
  | sendResource (assetId uri : String)
  | download (rid : String)
  | segment (prompt : String) (params : Params)
deriving DecidableEq, Repr

/-- The content loop of chat_proto.py lines 82-118: classify each part in
arrival order; session-start sends a metadata message; text is collected;
a resource is downloaded — contents collected (setting has_image), missing
contents only logged, and a raised download exception sends the failure
text and returns from the whole handler (second component `none`). -/
def gather (o : Oracle) : List InItem → List Ev × Option (List CItem × Bool)
  | [] => ([], some ([], false))
  | .startSession :: rest =>
    let r := gather o rest
    (.sendMetadata :: r.1, r.2)
  | .text s :: rest =>
    let r := gather o rest
    (r.1, r.2.map fun ci => (.text s :: ci.1, ci.2))
  | .other :: rest => gather o rest
  | .resource rid :: rest =>
    match o.download rid with
    | .exn => ([.download rid, .sendText "Failed to download resource."], none)
    | .noContents =>
      let r := gather o rest
      (.download rid :: r.1, r.2)
    | .ok mime contents =>
      let r := gather o rest
      (.download rid :: r.1,
        r.2.map fun ci => (.res (mime.getD "image/png") contents :: ci.1, true))

/-- The extraction loop of get_image, evitsam.py lines 174-181: the prompt
is the last text item (default ""), the image the last resource item whose
mime type starts with "image/" (`prefixOf` is str.startswith; base64
decoding is the identity on the opaque byte tokens). -/
def extractParts (cis : List CItem) : String × Option (String × String) :=
  cis.foldl
    (fun acc it =>
      match it with
      | .text s => (s, acc.2)
      | .res mime contents =>
        if prefixOf ("image/".toList) mime.toList then (acc.1, some (mime, contents))
        else acc)
    ("", none)

/-- get_image, evitsam.py lines 156-186, called by the handler with no tool
dict (so no explicit overrides): events it causes and its result. -/
def get_image (remote : RemoteOutcome) (cis : List CItem) :
    List Ev × (Option String × String) :=
  match extractParts cis with
  | (prompt, some (mime, data)) =>
    ([.segment prompt (resolveParams prompt {})],
      process_image_with_sam data mime prompt {} remote)
  | (_, none) => ([], (none, "No valid image found in the content"))

/-- chat_proto.py lines 120-161: after gathering, if an image was
downloaded, run get_image; on an image result, store it (create_asset gives
the oracle's asset id), send the analysis text when non-empty, then send
the resource reference; otherwise send the analysis or the fallback text.
With only text items, send the fixed prompt; with nothing usable, send
nothing. -/
def afterGather (o : Oracle) (cis : List CItem) (hasImage : Bool) : List Ev :=
  if hasImage then
    let r := get_image o.remote cis
    r.1 ++
      match r.2 with
      | (some _, analysis) =>
        (if analysis ≠ "" then [Ev.sendText analysis] else []) ++
        [Ev.sendResource o.assetId
          ("agent-storage://" ++ o.storageUrl ++ "/" ++ o.assetId)]
      | (none, analysis) =>
        [Ev.sendText (if analysis ≠ "" then analysis else "Failed to process image.")]
  else if cis ≠ [] then
    [Ev.sendText "Please send an image to analyze."]
  else []

/-- handle_message, chat_proto.py lines 68-161: acknowledge first, then the
content loop, then (unless the loop returned early) the processing step. -/
def handle_message (o : Oracle) (content : List InItem) : List Ev :=
  Ev.ack ::
    (match gather o content with
     | (evs, none) => evs
     | (evs, some (cis, hasImg)) => evs ++ afterGather o cis hasImg)

/-- Is an event an outbound ChatMessage (a reply; the acknowledgement is a
ChatAcknowledgement, not a ChatMessage)? -/
def isMsg : Ev → Bool
  | .sendText _ => true
  | .sendMetadata => true
  | .sendResource _ _ => true
  | _ => false

/-- Is an event a text reply? -/
def isText : Ev → Bool
  | .sendText _ => true
  | _ => false

/-- Is an event the acknowledgement send? -/
def isAck : Ev → Bool
  | .ack => true
  | _ => false

/-- Is an event the remote segmentation invocation? -/
def isSeg : Ev → Bool
  | .segment _ _ => true
  | _ => false

/-- The outbound ChatMessages of a trace, in order. -/
def msgsOf (evs : List Ev) : List Ev := evs.filter isMsg

/-- The text replies of a trace, in order. -/
def textsOf (evs : List Ev) : List Ev := evs.filter isText

/-- The acknowledgement sends of a trace. -/
def acksOf (evs : List Ev) : List Ev := evs.filter isAck

/-- The segmentation invocations of a trace. -/
def segsOf (evs : List Ev) : List Ev := evs.filter isSeg

/-- A failing-download oracle for the C4 witness. -/
def oC4 : Oracle :=
  { download := fun _ => DOutcome.exn
    remote := RemoteOutcome.noOutput
    assetId := "aid"
    storageUrl := "surl" }

/-- A successful-download, successful-segmentation oracle for the C8
witness. -/
def oC8 : Oracle :=
  { download := fun _ => DOutcome.ok none "imgbytes"
    remote := RemoteOutcome.output "segbytes"
    assetId := "aid"
    storageUrl := "surl" }

/-- An all-default oracle for the C9 witness. -/
def oC9 : Oracle :=
  { download := fun _ => DOutcome.exn
    remote := RemoteOutcome.noOutput
    assetId := "aid"
    storageUrl := "surl" }

theorem num_eq_mul_den (a : ℚ) : (a.num : ℚ) = a * (a.den : ℚ) := by
  have hd : ((a.den : ℚ)) ≠ 0 := Nat.cast_ne_zero.mpr a.den_nz
  exact (div_eq_iff hd).mp (Rat.num_div_den a)

theorem qAdd_eq (a b : ℚ) : qAdd a b = a + b := by
  have ha : ((a.den : ℚ)) ≠ 0 := Nat.cast_ne_zero.mpr a.den_nz
  have hb : ((b.den : ℚ)) ≠ 0 := Nat.cast_ne_zero.mpr b.den_nz
  rw [qAdd, Rat.mkRat_eq_div]
  push_cast
  rw [div_eq_iff (mul_ne_zero ha hb), num_eq_mul_den a, num_eq_mul_den b]
  ring

theorem qSub_eq (a b : ℚ) : qSub a b = a - b := by
  have ha : ((a.den : ℚ)) ≠ 0 := Nat.cast_ne_zero.mpr a.den_nz
  have hb : ((b.den : ℚ)) ≠ 0 := Nat.cast_ne_zero.mpr b.den_nz
  rw [qSub, Rat.mkRat_eq_div]
  push_cast
  rw [div_eq_iff (mul_ne_zero ha hb), num_eq_mul_den a, num_eq_mul_den b]
  ring

theorem append_ne_empty_left (s t : String) (h : 0 < s.length) :
    s ++ t ≠ "" := by
  intro he
  have h2 := congrArg String.length he
  rw [String.length_append] at h2
  rw [show ("" : String).length = 0 from rfl] at h2
  omega

theorem analysisText_ne_empty (p : Params) : analysisText p ≠ "" := by
  unfold analysisText
  apply append_ne_empty_left
  repeat rw [String.length_append]
  have h : 0 <
      ("Processed image with SAM parameters:\n- Points per side: ").length := by
    decide
  omega

theorem clampThreshold_bounds (x : ℚ) :
    mkRat 1 10 ≤ clampThreshold x ∧ clampThreshold x ≤ 1 :=
  ⟨le_max_left _ _,
   max_le (by rw [Rat.mkRat_eq_div]; norm_num) (min_le_left _ _)⟩

theorem q01_eq : (0.1 : ℚ) = mkRat 1 10 := by
  rw [Rat.mkRat_eq_div]; norm_num

theorem q095_eq : (0.95 : ℚ) = mkRat 95 100 := by
  rw [Rat.mkRat_eq_div]; norm_num

theorem q05_eq : (0.5 : ℚ) = mkRat 5 10 := by
  rw [Rat.mkRat_eq_div]; norm_num

/-- C1: for every call to process_image_with_sam, after the validation step
the parameters passed to the remote call satisfy: points_per_side is an
integer in [1,128], and the iou, stability and box-nms thresholds are each
in [0.1, 1.0], regardless of the prompt and of the explicit keyword
overrides. -/
theorem C1_validated_bounds (prompt : String) (overrides : Updates) :
    (∃ n : ℤ, (resolveParams prompt overrides).points_per_side = (n : ℚ) ∧
      1 ≤ n ∧ n ≤ 128) ∧
    ((0.1 : ℚ) ≤ (resolveParams prompt overrides).iou_threshold ∧
      (resolveParams prompt overrides).iou_threshold ≤ 1) ∧
    ((0.1 : ℚ) ≤ (resolveParams prompt overrides).stability_threshold ∧
      (resolveParams prompt overrides).stability_threshold ≤ 1) ∧
    ((0.1 : ℚ) ≤ (resolveParams prompt overrides).box_nms_threshold ∧
      (resolveParams prompt overrides).box_nms_threshold ≤ 1) := by
  rw [q01_eq]
  refine ⟨⟨max 1 (min 128 (pyInt ((updateParams (updateParams DEFAULT_PARAMS
    (parse_prompt_for_parameters prompt)) overrides).points_per_side))), rfl,
    le_max_left _ _, max_le (by norm_num) (min_le_left _ _)⟩,
    clampThreshold_bounds _, clampThreshold_bounds _, clampThreshold_bounds _⟩

/-- C5: the final parameter record is built with the precedence
defaults < prompt-derived updates < explicit keyword overrides: for every
field, an explicit override's clamped value is used when supplied,
otherwise the prompt update's clamped value when present, otherwise the
default. -/
theorem C5_override_precedence (prompt : String) (overrides : Updates) :
    (resolveParams prompt overrides).points_per_side =
      clampPoints (overrides.points_per_side.getD
        ((parse_prompt_for_parameters prompt).points_per_side.getD
          DEFAULT_PARAMS.points_per_side)) ∧
    (resolveParams prompt overrides).iou_threshold =
      clampThreshold (overrides.iou_threshold.getD
        ((parse_prompt_for_parameters prompt).iou_threshold.getD
          DEFAULT_PARAMS.iou_threshold)) ∧
    (resolveParams prompt overrides).stability_threshold =
      clampThreshold (overrides.stability_threshold.getD
        ((parse_prompt_for_parameters prompt).stability_threshold.getD
          DEFAULT_PARAMS.stability_threshold)) ∧
    (resolveParams prompt overrides).box_nms_threshold =
      clampThreshold (overrides.box_nms_threshold.getD
        ((parse_prompt_for_parameters prompt).box_nms_threshold.getD
          DEFAULT_PARAMS.box_nms_threshold)) :=
  ⟨rfl, rfl, rfl, rfl⟩

/-- C6: on every failure of the remote segmentation call (exception or
missing output file) process_image_with_sam returns an absent image and an
error-describing string; the analysis text is always non-empty; image bytes
are present exactly when the call succeeded. -/
theorem C6_failure_contract (imageData mimeType prompt : String)
    (overrides : Updates) (o : RemoteOutcome) :
    ((process_image_with_sam imageData mimeType prompt overrides o).1.isSome ↔
      ∃ b, o = RemoteOutcome.output b) ∧
    (process_image_with_sam imageData mimeType prompt overrides o).2 ≠ "" ∧
    (∀ m, o = RemoteOutcome.exn m →
      process_image_with_sam imageData mimeType prompt overrides o =
        (none, "Error processing image with SAM: " ++ m)) ∧
    (o = RemoteOutcome.noOutput →
      process_image_with_sam imageData mimeType prompt overrides o =
        (none, "Failed to process image: No output file was generated")) := by
  cases o with
  | exn m =>
    refine ⟨by simp [process_image_with_sam], ?_, ?_, by intro h; cases h⟩
    · exact append_ne_empty_left _ _ (by decide)
    · intro m2 hm
      cases hm
      rfl
  | noOutput =>
    refine ⟨by simp [process_image_with_sam], ?_, ?_, fun _ => rfl⟩
    · show ("Failed to process image: No output file was generated" : String) ≠ ""
      decide
    · intro m hm
      cases hm
  | output b =>
    refine ⟨by simp [process_image_with_sam], analysisText_ne_empty _, ?_, ?_⟩
    · intro m hm
      cases hm
    · intro h
      cases h

/-- C6 witness: the contract evaluated on the exception and missing-output
outcomes at concrete inputs. -/
theorem C6_failure_contract_witness :
    process_image_with_sam "img" "image/png" "" {} (RemoteOutcome.exn "boom") =
      (none, "Error processing image with SAM: boom") ∧
    process_image_with_sam "img" "image/png" "" {} RemoteOutcome.noOutput =
      (none, "Failed to process image: No output file was generated") :=
  ⟨(C6_failure_contract "img" "image/png" "" {}
      (RemoteOutcome.exn "boom")).2.2.1 "boom" rfl,
   (C6_failure_contract "img" "image/png" "" {}
      RemoteOutcome.noOutput).2.2.2 rfl⟩

/-- C7: the claim is the spec's release-on-every-exit-path obligation, and
the code breaks it on one path: when `tmp.write(image_data)` raises inside
the with-block (lines 110-112), before the inner try/finally is entered,
the delete=False temporary input file survives the function's return — no
cleanup code runs on that path. On every other exit path (remote call
raising included, where the finally unlinks the tmp file before the
NameError on the unbound `result` propagates) both temporary files are
released. -/
theorem C7_write_raises_leaks_tmpfile :
    runFS (processFSTrace ExitPath.writeRaises) =
      { tmpFile := true, outFile := false } ∧
    runFS (processFSTrace ExitPath.predictRaises) =
      { tmpFile := false, outFile := false } ∧
    runFS (processFSTrace ExitPath.noOutputFile) =
      { tmpFile := false, outFile := false } ∧
    runFS (processFSTrace ExitPath.readRaises) =
      { tmpFile := false, outFile := false } ∧
    runFS (processFSTrace ExitPath.success) =
      { tmpFile := false, outFile := false } :=
  ⟨rfl, rfl, rfl, rfl, rfl⟩

/-- C2 counterexample: the prompt "higher quality faster" contains
"higher quality", yet the resulting points_per_side is 32, below the
default 64 — the "faster" block runs last and overwrites the
"higher quality" block. -/
theorem C2_counterexample :
    ¬ (∀ prompt : String,
        containsSub ("higher quality".toList) (pyLower prompt) = true →
        ∀ v : ℚ, (parse_prompt_for_parameters prompt).points_per_side = some v →
          DEFAULT_PARAMS.points_per_side ≤ v) := by
  intro h
  have h2 := h "higher quality faster" (by decide) 32 (by decide)
  revert h2
  decide

/-- C2 (amended): for every prompt containing "higher quality" and not
containing "faster", the resulting points_per_side is in [default, 128] and
the resulting iou and stability thresholds are each at most 0.95; for every
prompt containing "faster", the resulting points_per_side is in
[16, default] and the resulting iou and stability thresholds are each at
least 0.5. -/
theorem C2_phrase_bounds (prompt : String) :
    (containsSub ("higher quality".toList) (pyLower prompt) = true →
     containsSub ("faster".toList) (pyLower prompt) = false →
     ∃ pts iq st : ℚ,
       (parse_prompt_for_parameters prompt).points_per_side = some pts ∧
       DEFAULT_PARAMS.points_per_side ≤ pts ∧ pts ≤ 128 ∧
       (parse_prompt_for_parameters prompt).iou_threshold = some iq ∧
       iq ≤ (0.95 : ℚ) ∧
       (parse_prompt_for_parameters prompt).stability_threshold = some st ∧
       st ≤ (0.95 : ℚ)) ∧
    (containsSub ("faster".toList) (pyLower prompt) = true →
     ∃ pts iq st : ℚ,
       (parse_prompt_for_parameters prompt).points_per_side = some pts ∧
       16 ≤ pts ∧ pts ≤ DEFAULT_PARAMS.points_per_side ∧
       (parse_prompt_for_parameters prompt).iou_threshold = some iq ∧
       (0.5 : ℚ) ≤ iq ∧
       (parse_prompt_for_parameters prompt).stability_threshold = some st ∧
       (0.5 : ℚ) ≤ st) := by
  rw [q095_eq, q05_eq]
  constructor
  · intro h1 h2
    refine ⟨min 128 ((defaultPointsInt * 2 : ℤ) : ℚ),
      min (mkRat 95 100) (qAdd DEFAULT_PARAMS.iou_threshold (mkRat 5 100)),
      min (mkRat 95 100) (qAdd DEFAULT_PARAMS.stability_threshold (mkRat 5 100)),
      ?_, by decide, by decide, ?_, min_le_left _ _, ?_, min_le_left _ _⟩
    · simp only [parse_prompt_for_parameters, applyPhrases, h1, h2,
        eq_self_iff_true, if_true, Bool.false_eq_true, if_false]
    · simp only [parse_prompt_for_parameters, applyPhrases, h1, h2,
        eq_self_iff_true, if_true, Bool.false_eq_true, if_false]
    · simp only [parse_prompt_for_parameters, applyPhrases, h1, h2,
        eq_self_iff_true, if_true, Bool.false_eq_true, if_false]
  · intro h2
    refine ⟨max 16 ((Int.fdiv defaultPointsInt 2 : ℤ) : ℚ),
      max (mkRat 5 10) (qSub DEFAULT_PARAMS.iou_threshold (mkRat 1 10)),
      max (mkRat 5 10) (qSub DEFAULT_PARAMS.stability_threshold (mkRat 1 10)),
      ?_, le_max_left _ _, by decide, ?_, le_max_left _ _, ?_, le_max_left _ _⟩
    · simp only [parse_prompt_for_parameters, applyPhrases, h2,
        eq_self_iff_true, if_true]
    · simp only [parse_prompt_for_parameters, applyPhrases, h2,
        eq_self_iff_true, if_true]
    · simp only [parse_prompt_for_parameters, applyPhrases, h2,
        eq_self_iff_true, if_true]

/-- C2 witness: both halves evaluated, on "higher quality" and on
"faster". -/
theorem C2_phrase_bounds_witness :
    (∃ pts iq st : ℚ,
      (parse_prompt_for_parameters "higher quality").points_per_side = some pts ∧
      DEFAULT_PARAMS.points_per_side ≤ pts ∧ pts ≤ 128 ∧
      (parse_prompt_for_parameters "higher quality").iou_threshold = some iq ∧
      iq ≤ (0.95 : ℚ) ∧
      (parse_prompt_for_parameters "higher quality").stability_threshold = some st ∧
      st ≤ (0.95 : ℚ)) ∧
    (∃ pts iq st : ℚ,
      (parse_prompt_for_parameters "faster").points_per_side = some pts ∧
      16 ≤ pts ∧ pts ≤ DEFAULT_PARAMS.points_per_side ∧
      (parse_prompt_for_parameters "faster").iou_threshold = some iq ∧
      (0.5 : ℚ) ≤ iq ∧
      (parse_prompt_for_parameters "faster").stability_threshold = some st ∧
      (0.5 : ℚ) ≤ st) :=
  ⟨(C2_phrase_bounds "higher quality").1 (by decide) (by decide),
   (C2_phrase_bounds "faster").2 (by decide)⟩

/-- C3 counterexample: "higher quality points=32" carries the explicit
token points=32, yet the parsed points_per_side is 128 — the phrase block
runs after the token match and overwrites it, so the explicit token does
not win. -/
theorem C3_counterexample :
    ¬ (∀ (prompt : String) (v : ℚ),
        containsSub ("higher quality".toList) (pyLower prompt) = true →
        aliasSearch ("points".toList) (pyLower prompt) = some v →
        (parse_prompt_for_parameters prompt).points_per_side = some v) := by
  intro h
  have h2 := h "higher quality points=32" 32 (by decide) (by decide)
  revert h2
  decide

/-- C3 (amended): the two canned-phrase triggers are applied after the
single-parameter pattern matches, and for a prompt containing both
"higher quality" (without "faster") and an explicit numeric token for
points, the phrase's value wins: the final points_per_side is the phrase
update min(128, default*2), regardless of the token's value. -/
theorem C3_phrase_wins (prompt : String) (v : ℚ)
    (h1 : containsSub ("higher quality".toList) (pyLower prompt) = true)
    (h2 : containsSub ("faster".toList) (pyLower prompt) = false)
    (htok : (parseLoop (pyLower prompt)).points_per_side = some v) :
    parse_prompt_for_parameters prompt =
      applyPhrases (pyLower prompt) (parseLoop (pyLower prompt)) ∧
    (parse_prompt_for_parameters prompt).points_per_side =
      some (min 128 ((defaultPointsInt * 2 : ℤ) : ℚ)) :=
  ⟨rfl, by
    simp only [parse_prompt_for_parameters, applyPhrases, h1, h2,
      eq_self_iff_true, if_true, Bool.false_eq_true, if_false]⟩

/-- C3 witness: evaluated on "higher quality points=32", whose token match
yields 32. -/
theorem C3_phrase_wins_witness :
    parse_prompt_for_parameters "higher quality points=32" =
      applyPhrases (pyLower "higher quality points=32")
        (parseLoop (pyLower "higher quality points=32")) ∧
    (parse_prompt_for_parameters "higher quality points=32").points_per_side =
      some (min 128 ((defaultPointsInt * 2 : ℤ) : ℚ)) :=
  C3_phrase_wins "higher quality points=32" 32 (by decide) (by decide) (by decide)

/-- C10: the alias "quality" also maps to iou_threshold and is examined
after the alias "iou", so when a prompt matches numeric tokens for both,
the value matched for "quality" is the final iou_threshold update of the
alias loop, overwriting the value matched for "iou". -/
theorem C10_quality_overwrites_iou (p : List Char) (w v : ℚ)
    (hiou : aliasSearch ("iou".toList) p = some w)
    (hq : aliasSearch ("quality".toList) p = some v) :
    (parseLoop p).iou_threshold = some v := by
  unfold parseLoop
  rw [hq]

/-- C10 witness: on "iou=0.8 quality 0.6" the iou token matches 0.8, the
quality token matches 0.6, and the loop's final iou update is 0.6. -/
theorem C10_quality_overwrites_iou_witness :
    (parseLoop ("iou=0.8 quality 0.6".toList)).iou_threshold =
      some (mkRat 6 10) :=
  C10_quality_overwrites_iou ("iou=0.8 quality 0.6".toList)
    (mkRat 8 10) (mkRat 6 10) (by decide) (by decide)

theorem textsOf_cons_nontext (e : Ev) (l : List Ev) (h : isText e = false) :
    textsOf (e :: l) = textsOf l := by
  simp [textsOf, List.filter_cons, h]

theorem acksOf_cons_nonack (e : Ev) (l : List Ev) (h : isAck e = false) :
    acksOf (e :: l) = acksOf l := by
  simp [acksOf, List.filter_cons, h]

theorem acksOf_append (a b : List Ev) :
    acksOf (a ++ b) = acksOf a ++ acksOf b := by
  simp [acksOf, List.filter_append]

theorem textsOf_append (a b : List Ev) :
    textsOf (a ++ b) = textsOf a ++ textsOf b := by
  simp [textsOf, List.filter_append]

theorem gather_no_ack (o : Oracle) (l : List InItem) :
    acksOf (gather o l).1 = [] := by
  induction l with
  | nil => rfl
  | cons it rest ih =>
    cases it with
    | startSession => simpa [gather, acksOf, isAck, List.filter_cons] using ih
    | text s => simpa [gather] using ih
    | other => simpa [gather] using ih
    | resource rid =>
      cases hdl : o.download rid with
      | exn => simp [gather, hdl, acksOf, isAck, List.filter_cons]
      | noContents =>
        simpa [gather, hdl, acksOf, isAck, List.filter_cons] using ih
      | ok m c =>
        simpa [gather, hdl, acksOf, isAck, List.filter_cons] using ih

theorem acksOf_afterGather (o : Oracle) (cis : List CItem) (hi : Bool) :
    acksOf (afterGather o cis hi) = [] := by
  cases hi with
  | false =>
    by_cases hc : cis = []
    · simp [afterGather, hc, acksOf]
    · simp [afterGather, hc, acksOf, isAck, List.filter_cons]
  | true =>
    rcases hex : extractParts cis with ⟨prompt, img⟩
    cases img with
    | none =>
      simp [afterGather, get_image, hex, acksOf, isAck, List.filter_cons]
    | some mc =>
      rcases mc with ⟨mime, data⟩
      rcases hpr : process_image_with_sam data mime prompt {} o.remote
        with ⟨img2, analysis⟩
      cases img2 with
      | none =>
        simp [afterGather, get_image, hex, hpr, acksOf, isAck,
          List.filter_cons, List.filter_append]
      | some bb =>
        by_cases ha : analysis = ""
        · simp [afterGather, get_image, hex, hpr, ha, acksOf, isAck,
            List.filter_cons, List.filter_append]
        · simp [afterGather, get_image, hex, hpr, ha, acksOf, isAck,
            List.filter_cons, List.filter_append]

theorem textsOf_gather (o : Oracle) (l : List InItem) :
    textsOf (gather o l).1 =
      (if (gather o l).2 = none
       then [Ev.sendText "Failed to download resource."] else []) := by
  induction l with
  | nil => simp [gather, textsOf]
  | cons it rest ih =>
    cases it with
    | startSession =>
      simp only [gather]
      rw [textsOf_cons_nontext Ev.sendMetadata _ rfl]
      exact ih
    | text s =>
      simp only [gather]
      rw [ih]
      by_cases h : (gather o rest).2 = none
      · simp [h]
      · simp [h, Option.map_eq_none']
    | other =>
      simp only [gather]
      exact ih
    | resource rid =>
      cases hdl : o.download rid with
      | exn => simp [gather, hdl, textsOf, isText, List.filter_cons]
      | noContents =>
        simp only [gather, hdl]
        rw [textsOf_cons_nontext (Ev.download rid) _ rfl]
        exact ih
      | ok m c =>
        simp only [gather, hdl]
        rw [textsOf_cons_nontext (Ev.download rid) _ rfl, ih]
        by_cases h : (gather o rest).2 = none
        · simp [h]
        · simp [h, Option.map_eq_none']

theorem gather_abort_of_failing (o : Oracle) (l : List InItem) (rid : String)
    (hmem : InItem.resource rid ∈ l) (hdl : o.download rid = DOutcome.exn) :
    (gather o l).2 = none := by
  induction l with
  | nil => cases hmem
  | cons it rest ih =>
    rcases List.mem_cons.mp hmem with h | h
    · cases h.symm
      simp [gather, hdl]
    · cases it with
      | startSession => simpa [gather] using ih h
      | text s => simp [gather, Option.map_eq_none', ih h]
      | other => simpa [gather] using ih h
      | resource rid2 =>
        cases hdl2 : o.download rid2 with
        | exn => simp [gather, hdl2]
        | noContents => simpa [gather, hdl2] using ih h
        | ok m c => simp [gather, hdl2, Option.map_eq_none', ih h]

/-- C4: on every inbound message, the acknowledgement is sent exactly once
and first (before any download or segmentation work); and when the message
contains a binary-resource part whose download raises, exactly one text
reply is sent, the failure notice. -/
theorem C4_ack_once_failure_reply (o : Oracle) (content : List InItem) :
    (handle_message o content).head? = some Ev.ack ∧
    acksOf (handle_message o content) = [Ev.ack] ∧
    ((∃ rid, InItem.resource rid ∈ content ∧ o.download rid = DOutcome.exn) →
      textsOf (handle_message o content) =
        [Ev.sendText "Failed to download resource."]) := by
  refine ⟨rfl, ?_, ?_⟩
  · rcases hg : gather o content with ⟨evs, r⟩
    have hna : acksOf evs = [] := by
      have h := gather_no_ack o content
      rw [hg] at h
      exact h
    cases r with
    | none =>
      simp [handle_message, hg, acksOf, List.filter_cons, isAck]
      simpa [acksOf] using hna
    | some ci =>
      rcases ci with ⟨cis, hi⟩
      simp [handle_message, hg, acksOf, List.filter_cons, List.filter_append, isAck]
      constructor
      · simpa [acksOf] using hna
      · simpa [acksOf] using acksOf_afterGather o cis hi
  · rintro ⟨rid, hmem, hdl⟩
    have habort : (gather o content).2 = none :=
      gather_abort_of_failing o content rid hmem hdl
    have htexts := textsOf_gather o content
    rcases hg : gather o content with ⟨evs, r⟩
    rw [hg] at habort htexts
    cases habort
    simp only [handle_message, hg]
    rw [textsOf_cons_nontext Ev.ack _ rfl]
    simpa using htexts

/-- C4 witness: one resource whose download raises; the trace's text
replies are exactly the failure notice. -/
theorem C4_ack_once_failure_reply_witness :
    textsOf (handle_message oC4 [InItem.resource "r"]) =
      [Ev.sendText "Failed to download resource."] :=
  (C4_ack_once_failure_reply oC4 [InItem.resource "r"]).2.2
    ⟨"r", by decide, rfl⟩

theorem resolve_empty : resolveParams "" ({} : Updates) = DEFAULT_PARAMS := by
  decide

/-- C8: for a message whose content is exactly one valid image resource and
no text part, segmentation is invoked with all four parameters at their
defaults; and on segmentation success the outbound reply messages are
exactly the analysis text followed by the resource reference, in that
order. -/
theorem C8_default_params_two_replies (o : Oracle) (rid : String)
    (mim : Option String) (cont : String)
    (hdl : o.download rid = DOutcome.ok mim cont)
    (himg : prefixOf ("image/".toList) ((mim.getD "image/png").toList) = true) :
    segsOf (handle_message o [InItem.resource rid]) =
      [Ev.segment "" DEFAULT_PARAMS] ∧
    (∀ b, o.remote = RemoteOutcome.output b →
      msgsOf (handle_message o [InItem.resource rid]) =
        [Ev.sendText (analysisText DEFAULT_PARAMS),
         Ev.sendResource o.assetId
           ("agent-storage://" ++ o.storageUrl ++ "/" ++ o.assetId)]) := by
  have hgather : gather o [InItem.resource rid] =
      ([Ev.download rid], some ([CItem.res (mim.getD "image/png") cont], true)) := by
    simp [gather, hdl]
  have hex : extractParts [CItem.res (mim.getD "image/png") cont] =
      ("", some (mim.getD "image/png", cont)) := by
    have h2 : prefixOf ['i', 'm', 'a', 'g', 'e', '/']
        (mim.getD "image/png").data = true := himg
    simp [extractParts, h2]
  constructor
  · rcases hpr : process_image_with_sam cont (mim.getD "image/png") ""
        ({} : Updates) o.remote with ⟨img2, analysis⟩
    cases img2 with
    | some bb =>
      by_cases ha : analysis = ""
      · simp [handle_message, hgather, afterGather, get_image, hex, hpr,
          resolve_empty, ha, segsOf, isSeg, List.filter_cons, List.filter_append]
      · simp [handle_message, hgather, afterGather, get_image, hex, hpr,
          resolve_empty, ha, segsOf, isSeg, List.filter_cons, List.filter_append]
    | none =>
      by_cases ha : analysis = ""
      · simp [handle_message, hgather, afterGather, get_image, hex, hpr,
          resolve_empty, ha, segsOf, isSeg, List.filter_cons, List.filter_append]
      · simp [handle_message, hgather, afterGather, get_image, hex, hpr,
          resolve_empty, ha, segsOf, isSeg, List.filter_cons, List.filter_append]
  · intro b hb
    have hproc : process_image_with_sam cont (mim.getD "image/png") ""
        ({} : Updates) o.remote = (some b, analysisText DEFAULT_PARAMS) := by
      rw [hb]
      simp [process_image_with_sam, resolve_empty]
    simp [handle_message, hgather, afterGather, get_image, hex, hproc,
      resolve_empty, msgsOf, isMsg, List.filter_cons, List.filter_append,
      analysisText_ne_empty DEFAULT_PARAMS]

/-- C8 witness: one valid image resource, successful segmentation; the
outbound messages are the analysis text then the resource reference. -/
theorem C8_default_params_two_replies_witness :
    msgsOf (handle_message oC8 [InItem.resource "r"]) =
      [Ev.sendText (analysisText DEFAULT_PARAMS),
       Ev.sendResource "aid" ("agent-storage://" ++ "surl" ++ "/" ++ "aid")] :=
  (C8_default_params_two_replies oC8 "r" none "imgbytes" rfl (by decide)).2
    "segbytes" rfl

theorem gather_all_text (o : Oracle) (l : List InItem)
    (hall : ∀ it ∈ l, ∃ s, it = InItem.text s) :
    ∃ cis : List CItem, gather o l = ([], some (cis, false)) ∧
      cis.length = l.length := by
  induction l with
  | nil => exact ⟨[], rfl, rfl⟩
  | cons it rest ih =>
    obtain ⟨s, hs⟩ := hall it (List.mem_cons_self it rest)
    obtain ⟨cis, hg, hlen⟩ := ih (fun x hx => hall x (List.mem_cons_of_mem _ hx))
    subst hs
    exact ⟨CItem.text s :: cis, by simp [gather, hg], by simp [hlen]⟩

/-- C9: for a message whose content consists only of text parts (and is
nonempty), the handler's outbound reply is exactly one text message, the
fixed "send an image" prompt. -/
theorem C9_text_only_fixed_reply (o : Oracle) (content : List InItem)
    (hne : content ≠ [])
    (hall : ∀ it ∈ content, ∃ s, it = InItem.text s) :
    msgsOf (handle_message o content) =
      [Ev.sendText "Please send an image to analyze."] := by
  obtain ⟨cis, hg, hlen⟩ := gather_all_text o content hall
  have hcis : ¬ (cis = []) := by
    intro h
    apply hne
    cases content with
    | nil => rfl
    | cons a l =>
      rw [h] at hlen
      cases hlen
  simp [handle_message, hg, afterGather, hcis, msgsOf, isMsg, List.filter_cons]

/-- C9 witness: a single text part gets exactly the fixed prompt back. -/
theorem C9_text_only_fixed_reply_witness :
    msgsOf (handle_message oC9 [InItem.text "hi"]) =
      [Ev.sendText "Please send an image to analyze."] :=
  C9_text_only_fixed_reply oC9 [InItem.text "hi"] (by decide)
    (fun it hit => ⟨"hi", List.mem_singleton.mp hit⟩)

end EvitSam
